import Mathlib

/-!
Shallow embedding of the digitalsitepro backend (src/model/userSchema.js).

The server exposes HTTP handlers over three MongoDB collections (users,
testimonial, proposals).  Collections are modelled as Lean lists of
documents; MongoDB operations (`findOne`, `insertOne`, `updateOne` with
`$set` and `upsert`, `deleteOne`) are modelled as list functions that
return the new collection together with the driver's result counts.
`modifiedCount` counts documents actually changed (a `$set` that leaves a
matched document identical reports `modifiedCount = 0`), and
`upsertedCount` is 1 exactly when no document matched and `upsert: true`
made the operation insert a document built from the filter's equality
fields plus the `$set` fields.  JavaScript string truthiness (the empty
string is falsy) is modelled explicitly where the handlers use it.
-/

namespace DigitalSitePro

/-- A document of the `users` collection.  `email` is the lookup key used by
every handler; the other fields are optional (`none` models an absent
field).  Field values are strings, as the handlers treat them. -/
structure User where
  email : String
  name : Option String := none
  displayName : Option String := none
  phoneNumber : Option String := none
  country : Option String := none
  role : Option String := none
deriving DecidableEq

/-- A document of the `testimonial` collection.  `tid` models the `_id`
the handlers filter on; `approved` is the flag set by the approve
endpoint (`none` models an absent field, which marks a pending
testimonial); `fields` models the free-form submitted payload. -/
structure Testimonial where
  tid : String
  approved : Option Bool := none
  fields : List (String × String) := []
deriving DecidableEq

/-- A document of the `proposals` collection (only its presence matters for
the admin-gated listing endpoint). -/
structure Proposal where
  email : String
  payload : String
deriving DecidableEq

/-- JSON response bodies produced by the handlers. -/
inductive Body where
  | adminFlag (admin : Bool)
  | phone (phoneNumber : String)
  | message (text : String)
  | errorMsg (text : String)
  | testimonialList (ts : List Testimonial)
  | proposalList (ps : List Proposal)
  | insertResult
  | updateResult (modifiedCount upsertedCount : Nat)
deriving DecidableEq

/-- An HTTP response: status code and JSON body. -/
structure Response where
  status : Nat
  body : Body
deriving DecidableEq

/-- `collection.findOne(filter)`: the first document matching the filter,
in natural (insertion) order. -/
def mongoFindOne {α : Type} (p : α → Bool) (l : List α) : Option α :=
  l.find? p

/-- `collection.updateOne(filter, { $set: ... }, { upsert: true })`:
returns the new collection, the `modifiedCount` and the `upsertedCount`.
The first matching document is replaced by `f` applied to it;
`modifiedCount` is 1 only if that actually changed the document.  If no
document matches, `fresh` (the document built from the filter's equality
fields plus the `$set` fields) is inserted and `upsertedCount` is 1. -/
def mongoUpdateOne {α : Type} [DecidableEq α] (p : α → Bool) (f : α → α) (fresh : α) :
    List α → List α × Nat × Nat
  | [] => ([fresh], 0, 1)
  | d :: rest =>
    if p d then
      (f d :: rest, if f d = d then 0 else 1, 0)
    else
      let r := mongoUpdateOne p f fresh rest
      (d :: r.1, r.2.1, r.2.2)

/-- `collection.deleteOne(filter)`: removes the first matching document;
returns the new collection and the `deletedCount`. -/
def mongoDeleteOne {α : Type} (p : α → Bool) : List α → List α × Nat
  | [] => ([], 0)
  | d :: rest =>
    if p d then (rest, 1)
    else
      let r := mongoDeleteOne p rest
      (d :: r.1, r.2)

/-- JavaScript truthiness of an optional string field: an absent field
(`undefined`) and the empty string are falsy, every other string is
truthy. -/
def truthyStr : Option String → Bool
  | none => false
  | some s => decide (s ≠ "")

/-- The role check repeated at every protected endpoint:
`user = usersCollection.findOne({ email }); user?.role === "admin"`.
An absent user or an absent `role` field yields `false`. -/
def isAdmin (users : List User) (email : String) : Bool :=
  match mongoFindOne (fun d => d.email == email) users with
  | some u => decide (u.role = some "admin")
  | none => false

/-- `POST /users`: `insertOne(req.body)`, answering 200 with the raw
insert result.  No duplicate-email or authorization check. -/
def postUsers (users : List User) (u : User) : Response × List User :=
  (⟨200, Body.insertResult⟩, users ++ [u])

/-- `$set`-semantics for one optional field: a field present in the update
document overwrites, an absent one leaves the stored value untouched. -/
def setF (new old : Option String) : Option String :=
  match new with
  | some s => some s
  | none => old

/-- `{ $set: user }` applied to a stored document: every field present in
`user` is overwritten, absent fields are kept. -/
def applyUserSet (u : User) (d : User) : User :=
  { email := u.email
    name := setF u.name d.name
    displayName := setF u.displayName d.displayName
    phoneNumber := setF u.phoneNumber d.phoneNumber
    country := setF u.country d.country
    role := setF u.role d.role }

/-- `PUT /users`: `updateOne({ email: user.email }, { $set: user },
{ upsert: true })`, answering 200 with the raw update result. -/
def putUsers (users : List User) (u : User) : Response × List User :=
  let r := mongoUpdateOne (fun d => d.email == u.email) (applyUserSet u) u users
  (⟨200, Body.updateResult r.2.1 r.2.2⟩, r.1)

/-- `GET /users/:email`: answers 200 with
`{ admin: user?.role === "admin" }`; a missing user yields
`{ admin: false }`, never a 404. -/
def getUsersEmail (users : List User) (email : String) : Response :=
  ⟨200, Body.adminFlag (isAdmin users email)⟩

/-- `GET /users/phone/:email`: 404 "User not found" when no document
matches; 404 "User does not have a phone number" when the document's
`phoneNumber` is falsy (absent or empty); otherwise 200 with the
number. -/
def getUsersPhone (users : List User) (email : String) : Response :=
  match mongoFindOne (fun d => d.email == email) users with
  | none => ⟨404, Body.message "User not found"⟩
  | some u =>
    if truthyStr u.phoneNumber then
      ⟨200, Body.phone (u.phoneNumber.getD "")⟩
    else
      ⟨404, Body.message "User does not have a phone number"⟩

/-- Request body of `POST /users/:email` (updateProfile). -/
structure ProfileBody where
  displayName : Option String := none
  phoneNumber : Option String := none
  country : Option String := none
deriving DecidableEq

/-- The partial `$set` document built by updateProfile: a field enters
`updateFields` only when its submitted value is truthy
(`if (displayName) updateFields.displayName = displayName`). -/
def applyProfileSet (b : ProfileBody) (d : User) : User :=
  { d with
    displayName := if truthyStr b.displayName then b.displayName else d.displayName
    phoneNumber := if truthyStr b.phoneNumber then b.phoneNumber else d.phoneNumber
    country := if truthyStr b.country then b.country else d.country }

/-- The document the upsert inserts when no user matches: the filter's
`email` plus the truthy fields of the body. -/
def profileFresh (email : String) (b : ProfileBody) : User :=
  applyProfileSet b ⟨email, none, none, none, none, none⟩

/-- Whether the updateProfile body contributes at least one field to
`updateFields`: each of the three fields enters only when truthy. -/
def profileHasFields (b : ProfileBody) : Bool :=
  truthyStr b.displayName || truthyStr b.phoneNumber || truthyStr b.country

/-- `POST /users/:email` (updateProfile): `updateOne({ email },
{ $set: updateFields }, { upsert: true })`; answers 200 "User updated
successfully" when `modifiedCount > 0 || upsertedCount > 0`, else 200
"No changes made to the user".  When every submitted field is falsy,
`updateFields` is `{}` and MongoDB rejects the empty `$set` with a
FailedToParse server error before writing anything; the handler's catch
block turns the thrown error into 500 `{ message: "Internal server
error" }` and the collection is left untouched. -/
def postUsersEmail (users : List User) (email : String) (b : ProfileBody) :
    Response × List User :=
  if profileHasFields b then
    let r := mongoUpdateOne (fun d => d.email == email) (applyProfileSet b)
      (profileFresh email b) users
    if r.2.1 > 0 || r.2.2 > 0 then
      (⟨200, Body.message "User updated successfully"⟩, r.1)
    else
      (⟨200, Body.message "No changes made to the user"⟩, r.1)
  else
    (⟨500, Body.message "Internal server error"⟩, users)

/-- `GET /testimonialapprove/:email`: admin-gated list of testimonials
whose `approved` field is absent (`{ approved: { $exists: false } }`);
403 "Forbidden" otherwise. -/
def getTestimonialApproveEmail (users : List User) (ts : List Testimonial)
    (email : String) : Response :=
  if isAdmin users email then
    ⟨200, Body.testimonialList (ts.filter (fun t => decide (t.approved = none)))⟩
  else
    ⟨403, Body.errorMsg "Forbidden"⟩

/-- The `$set` of the approve endpoint: `{ approved: true }`. -/
def approveSet (t : Testimonial) : Testimonial :=
  { t with approved := some true }

/-- `PUT /testimonialapprove`: admin-gated
`updateOne({ _id }, { $set: { approved: true } }, { upsert: true })`;
200 with the full testimonial list when `upsertedCount === 1 ||
modifiedCount === 1`, else 404 "Testimonial not found.";
403 "Forbidden" for non-admins. -/
def putTestimonialApprove (users : List User) (ts : List Testimonial)
    (id : String) (userEmail : String) : Response × List Testimonial :=
  if isAdmin users userEmail then
    let r := mongoUpdateOne (fun t => t.tid == id) approveSet ⟨id, some true, []⟩ ts
    if r.2.2 == 1 || r.2.1 == 1 then
      (⟨200, Body.testimonialList r.1⟩, r.1)
    else
      (⟨404, Body.errorMsg "Testimonial not found."⟩, r.1)
  else
    (⟨403, Body.errorMsg "Forbidden"⟩, ts)

/-- `DELETE /testimonialapprove`: admin-gated `deleteOne({ _id })`;
200 with the full testimonial list when `deletedCount === 1`, else 404
"Testimonial not found."; 403 "Forbidden" for non-admins. -/
def deleteTestimonialApprove (users : List User) (ts : List Testimonial)
    (id : String) (userEmail : String) : Response × List Testimonial :=
  if isAdmin users userEmail then
    let r := mongoDeleteOne (fun t => t.tid == id) ts
    if r.2 == 1 then
      (⟨200, Body.testimonialList r.1⟩, r.1)
    else
      (⟨404, Body.errorMsg "Testimonial not found."⟩, r.1)
  else
    (⟨403, Body.errorMsg "Forbidden"⟩, ts)

/-- `GET /makeproposal?email=`: admin-gated list of all proposals;
403 "Access denied. User is not an admin." otherwise. -/
def getMakeproposal (users : List User) (ps : List Proposal)
    (email : String) : Response :=
  if isAdmin users email then
    ⟨200, Body.proposalList ps⟩
  else
    ⟨403, Body.message "Access denied. User is not an admin."⟩

/-- When no document matches the filter, an upsert-enabled `updateOne`
appends the fresh document and reports `modifiedCount = 0`,
`upsertedCount = 1`. -/
theorem mongoUpdateOne_of_find_none {α : Type} [DecidableEq α] (p : α → Bool) (f : α → α)
    (fresh : α) (l : List α) (h : l.find? p = none) :
    mongoUpdateOne p f fresh l = (l ++ [fresh], 0, 1) := by
  induction l with
  | nil => rfl
  | cons d rest ih =>
    rw [List.find?_cons] at h
    cases hp : p d with
    | true => rw [hp] at h; exact absurd h (by simp)
    | false =>
      rw [hp] at h
      simp [mongoUpdateOne, hp, ih h]

/-- When a document matches the filter, `updateOne` reports
`upsertedCount = 0` and `modifiedCount = 1` exactly if applying the
`$set` changed the first matching document. -/
theorem mongoUpdateOne_counts_of_find_some {α : Type} [DecidableEq α] (p : α → Bool)
    (f : α → α) (fresh : α) (l : List α) (t : α) (h : l.find? p = some t) :
    (mongoUpdateOne p f fresh l).2 = (if f t = t then 0 else 1, 0) := by
  induction l with
  | nil => simp [List.find?] at h
  | cons d rest ih =>
    rw [List.find?_cons] at h
    cases hp : p d with
    | true =>
      rw [hp] at h
      injection h with h
      subst h
      simp [mongoUpdateOne, hp]
    | false =>
      rw [hp] at h
      simp [mongoUpdateOne, hp, ih h]

/-- Looking up by the same filter after an upsert-enabled `updateOne`
finds the updated document (when the filter matched one) or the freshly
inserted one, provided the update and the fresh document keep matching
the filter. -/
theorem find?_mongoUpdateOne {α : Type} [DecidableEq α] (p : α → Bool) (f : α → α)
    (fresh : α) (l : List α) (hf : ∀ x, p x = true → p (f x) = true)
    (hfresh : p fresh = true) :
    (mongoUpdateOne p f fresh l).1.find? p =
      match l.find? p with
      | some t => some (f t)
      | none => some fresh := by
  induction l with
  | nil => simp [mongoUpdateOne, List.find?_cons, hfresh]
  | cons d rest ih =>
    cases hp : p d with
    | true =>
      simp [mongoUpdateOne, hp, List.find?_cons, hf d hp]
    | false =>
      simp only [mongoUpdateOne, hp, Bool.false_eq_true, if_false, List.find?_cons]
      exact ih

/-- `deleteOne` with a filter matching nothing leaves the collection
unchanged and reports `deletedCount = 0`. -/
theorem mongoDeleteOne_of_find_none {α : Type} (p : α → Bool) (l : List α)
    (h : l.find? p = none) : mongoDeleteOne p l = (l, 0) := by
  induction l with
  | nil => rfl
  | cons d rest ih =>
    rw [List.find?_cons] at h
    cases hp : p d with
    | true => rw [hp] at h; exact absurd h (by simp)
    | false =>
      rw [hp] at h
      simp [mongoDeleteOne, hp, ih h]

/-- `find?` over an appended list when the first part matches nothing. -/
theorem find?_append_of_none {α : Type} (p : α → Bool) (l₁ l₂ : List α)
    (h : l₁.find? p = none) : (l₁ ++ l₂).find? p = l₂.find? p := by
  induction l₁ with
  | nil => rfl
  | cons d rest ih =>
    rw [List.find?_cons] at h
    cases hp : p d with
    | true => rw [hp] at h; exact absurd h (by simp)
    | false =>
      rw [hp] at h
      simp [List.find?_cons, hp, ih h]

/-- Setting `approved := true` fixes a testimonial exactly when it is
already approved. -/
theorem approveSet_eq_self (t : Testimonial) :
    approveSet t = t ↔ t.approved = some true := by
  cases t with
  | mk tid ap fl =>
    simp [approveSet]
    exact eq_comm

/-- Claim C6: for every email that matches no user document, `GET
/users/:email` returns status 200 with body `{admin: false}` — never a
404 and never an error. -/
theorem adminFlag_missing_user_false (users : List User) (e : String)
    (h : ∀ d ∈ users, d.email ≠ e) :
    getUsersEmail users e = ⟨200, Body.adminFlag false⟩ := by
  have hf : users.find? (fun d => d.email == e) = none := by
    rw [List.find?_eq_none]
    intro d hd
    simp [h d hd]
  simp [getUsersEmail, isAdmin, mongoFindOne, hf]

/-- Witness for `adminFlag_missing_user_false` at the empty collection. -/
theorem adminFlag_missing_user_false_witness :
    getUsersEmail [] "nobody@example.com" = ⟨200, Body.adminFlag false⟩ :=
  adminFlag_missing_user_false [] "nobody@example.com" (by simp)

/-- Claim C5: a requester whose email does not resolve to a user document
with role `"admin"` receives status 403 from each of the four admin-gated
endpoints (`GET /testimonialapprove/:email`, `PUT /testimonialapprove`,
`DELETE /testimonialapprove`, `GET /makeproposal?email=`), for every
payload `id`. -/
theorem non_admin_gets_403 (users : List User) (ts : List Testimonial)
    (ps : List Proposal) (e id : String) (h : isAdmin users e = false) :
    (getTestimonialApproveEmail users ts e).status = 403
    ∧ (putTestimonialApprove users ts id e).1.status = 403
    ∧ (deleteTestimonialApprove users ts id e).1.status = 403
    ∧ (getMakeproposal users ps e).status = 403 := by
  simp [getTestimonialApproveEmail, putTestimonialApprove,
    deleteTestimonialApprove, getMakeproposal, h]

/-- Witness for `non_admin_gets_403` on an empty users collection. -/
theorem non_admin_gets_403_witness :
    isAdmin [] "x@x" = false
    ∧ ((getTestimonialApproveEmail [] [] "x@x").status = 403
      ∧ (putTestimonialApprove [] [] "t" "x@x").1.status = 403
      ∧ (deleteTestimonialApprove [] [] "t" "x@x").1.status = 403
      ∧ (getMakeproposal [] [] "x@x").status = 403) :=
  ⟨rfl, non_admin_gets_403 [] [] [] "x@x" "t" rfl⟩

/-- Claim C7: an admin deleting a testimonial id that matches no document
receives 404 "Testimonial not found." and the testimonial collection is
exactly unchanged. -/
theorem delete_missing_testimonial_404_unchanged (users : List User)
    (ts : List Testimonial) (id e : String) (hA : isAdmin users e = true)
    (h : ∀ t ∈ ts, t.tid ≠ id) :
    (deleteTestimonialApprove users ts id e).1
        = ⟨404, Body.errorMsg "Testimonial not found."⟩
    ∧ (deleteTestimonialApprove users ts id e).2 = ts := by
  have hf : ts.find? (fun t => t.tid == id) = none := by
    rw [List.find?_eq_none]
    intro t ht
    simp [h t ht]
  simp [deleteTestimonialApprove, hA, mongoDeleteOne_of_find_none _ _ hf]

/-- Witness for `delete_missing_testimonial_404_unchanged`: an admin
deleting from a one-element collection with a non-matching id. -/
theorem delete_missing_testimonial_404_unchanged_witness :
    (deleteTestimonialApprove [⟨"a@x", none, none, none, none, some "admin"⟩]
        [⟨"t1", none, []⟩] "t9" "a@x").1
      = ⟨404, Body.errorMsg "Testimonial not found."⟩
    ∧ (deleteTestimonialApprove [⟨"a@x", none, none, none, none, some "admin"⟩]
        [⟨"t1", none, []⟩] "t9" "a@x").2 = [⟨"t1", none, []⟩] :=
  delete_missing_testimonial_404_unchanged
    [⟨"a@x", none, none, none, none, some "admin"⟩] [⟨"t1", none, []⟩]
    "t9" "a@x" (by decide) (by decide)

/-- Claim C2: an admin approving a testimonial id that matches no document
triggers the upsert: a new document with `approved: true` is inserted,
the status is 200, and the body is the full testimonial list. -/
theorem approve_upsert_inserts (users : List User) (ts : List Testimonial)
    (id e : String) (hA : isAdmin users e = true) (h : ∀ t ∈ ts, t.tid ≠ id) :
    (putTestimonialApprove users ts id e).1
        = ⟨200, Body.testimonialList (ts ++ [⟨id, some true, []⟩])⟩
    ∧ (putTestimonialApprove users ts id e).2 = ts ++ [⟨id, some true, []⟩] := by
  have hf : ts.find? (fun t => t.tid == id) = none := by
    rw [List.find?_eq_none]
    intro t ht
    simp [h t ht]
  simp [putTestimonialApprove, hA, mongoUpdateOne_of_find_none _ _ _ _ hf]

/-- Witness for `approve_upsert_inserts`: an admin approving an id absent
from a one-element collection. -/
theorem approve_upsert_inserts_witness :
    (putTestimonialApprove [⟨"a@x", none, none, none, none, some "admin"⟩]
        [⟨"t1", none, []⟩] "t9" "a@x").1
      = ⟨200, Body.testimonialList [⟨"t1", none, []⟩, ⟨"t9", some true, []⟩]⟩
    ∧ (putTestimonialApprove [⟨"a@x", none, none, none, none, some "admin"⟩]
        [⟨"t1", none, []⟩] "t9" "a@x").2
      = [⟨"t1", none, []⟩, ⟨"t9", some true, []⟩] :=
  approve_upsert_inserts [⟨"a@x", none, none, none, none, some "admin"⟩]
    [⟨"t1", none, []⟩] "t9" "a@x" (by decide) (by decide)

/-- Claim C8: `GET /users/phone/:email` distinguishes its cases: no
matching user yields 404 "User not found"; a matching user whose
`phoneNumber` field is absent yields 404 "User does not have a phone
number"; a matching user with a (non-empty) phone number yields 200 with
that number. -/
theorem getPhone_three_cases (users : List User) (e : String) :
    ((∀ d ∈ users, d.email ≠ e) →
      getUsersPhone users e = ⟨404, Body.message "User not found"⟩)
    ∧ (∀ u, users.find? (fun d => d.email == e) = some u → u.phoneNumber = none →
      getUsersPhone users e = ⟨404, Body.message "User does not have a phone number"⟩)
    ∧ (∀ u p, users.find? (fun d => d.email == e) = some u → u.phoneNumber = some p →
      p ≠ "" → getUsersPhone users e = ⟨200, Body.phone p⟩) := by
  refine ⟨?_, ?_, ?_⟩
  · intro h
    have hf : users.find? (fun d => d.email == e) = none := by
      rw [List.find?_eq_none]
      intro d hd
      simp [h d hd]
    simp [getUsersPhone, mongoFindOne, hf]
  · intro u hu hp
    simp [getUsersPhone, mongoFindOne, hu, truthyStr, hp]
  · intro u p hu hp hne
    simp [getUsersPhone, mongoFindOne, hu, truthyStr, hp, hne]

/-- Witness for `getPhone_three_cases`: each of the three cases at a
concrete collection. -/
theorem getPhone_three_cases_witness :
    getUsersPhone [] "a@x" = ⟨404, Body.message "User not found"⟩
    ∧ getUsersPhone [⟨"b@x", none, none, none, none, none⟩] "b@x"
        = ⟨404, Body.message "User does not have a phone number"⟩
    ∧ getUsersPhone [⟨"c@x", none, none, some "0170000000", none, none⟩] "c@x"
        = ⟨200, Body.phone "0170000000"⟩ :=
  ⟨(getPhone_three_cases [] "a@x").1 (by simp),
   (getPhone_three_cases [⟨"b@x", none, none, none, none, none⟩] "b@x").2.1
     ⟨"b@x", none, none, none, none, none⟩ (by decide) rfl,
   (getPhone_three_cases [⟨"c@x", none, none, some "0170000000", none, none⟩] "c@x").2.2
     ⟨"c@x", none, none, some "0170000000", none, none⟩ "0170000000"
     (by decide) rfl (by decide)⟩

/-- Claim C10: `GET /users/phone/:email` decides phone presence by
JavaScript truthiness — a matching user whose `phoneNumber` field is
present but equal to the empty string (falsy) gets 404 "User does not
have a phone number", not 200. -/
theorem getPhone_falsy_phone_404 (users : List User) (e : String) (u : User)
    (hu : users.find? (fun d => d.email == e) = some u)
    (hp : u.phoneNumber = some "") :
    getUsersPhone users e = ⟨404, Body.message "User does not have a phone number"⟩ := by
  simp [getUsersPhone, mongoFindOne, hu, truthyStr, hp]

/-- Witness for `getPhone_falsy_phone_404`: a user whose stored phone
number is the empty string. -/
theorem getPhone_falsy_phone_404_witness :
    getUsersPhone [⟨"d@x", none, none, some "", none, none⟩] "d@x"
      = ⟨404, Body.message "User does not have a phone number"⟩ :=
  getPhone_falsy_phone_404 [⟨"d@x", none, none, some "", none, none⟩] "d@x"
    ⟨"d@x", none, none, some "", none, none⟩ (by decide) rfl

/-- Claim C9: `POST /users` performs no authorization check and stores the
body verbatim, so a caller can grant itself admin: inserting
`{email, role: "admin"}` and then querying `GET /users/:email` yields
`{admin: true}` (here for any prior collection without that email). -/
theorem self_grant_admin (users : List User) (e : String)
    (h : ∀ d ∈ users, d.email ≠ e) :
    getUsersEmail (postUsers users ⟨e, none, none, none, none, some "admin"⟩).2 e
      = ⟨200, Body.adminFlag true⟩ := by
  have hf : users.find? (fun d => d.email == e) = none := by
    rw [List.find?_eq_none]
    intro d hd
    simp [h d hd]
  simp [postUsers, getUsersEmail, isAdmin, mongoFindOne,
    find?_append_of_none _ _ _ hf, List.find?_cons]

/-- Witness for `self_grant_admin` starting from the empty collection. -/
theorem self_grant_admin_witness :
    getUsersEmail (postUsers []
        ⟨"me@x", none, none, none, none, some "admin"⟩).2 "me@x"
      = ⟨200, Body.adminFlag true⟩ :=
  self_grant_admin [] "me@x" (by simp)

/-- Claim C1 (counterexample): the 404 branch of `PUT /testimonialapprove`
is reachable for an admin requester — approving a testimonial that is
already `approved: true` matches the filter but modifies nothing
(`modifiedCount = 0`) and upserts nothing (`upsertedCount = 0`), so the
handler answers 404. -/
theorem approve_admin_404_reachable :
    isAdmin [⟨"a@x", none, none, none, none, some "admin"⟩] "a@x" = true
    ∧ (putTestimonialApprove [⟨"a@x", none, none, none, none, some "admin"⟩]
        [⟨"t1", some true, []⟩] "t1" "a@x").1.status = 404 := by
  decide

/-- Claim C1 (amended): for an admin requester, `PUT /testimonialapprove`
answers 404 exactly when the id matches a testimonial whose `approved`
field is already `true`; in every other case (no match, which upserts, or
a match that is not yet approved, which modifies) it answers 200. -/
theorem approve_admin_404_iff_already_approved (users : List User)
    (ts : List Testimonial) (id e : String) (hA : isAdmin users e = true) :
    ((putTestimonialApprove users ts id e).1.status = 404
      ↔ ∃ t, ts.find? (fun x => x.tid == id) = some t ∧ t.approved = some true) := by
  simp only [putTestimonialApprove, hA, if_true]
  cases hf : ts.find? (fun x => x.tid == id) with
  | none =>
    rw [mongoUpdateOne_of_find_none _ _ _ _ hf]
    simp
  | some t =>
    have hc := mongoUpdateOne_counts_of_find_some (fun x => x.tid == id) approveSet
      ⟨id, some true, []⟩ ts t hf
    rw [hc]
    by_cases ht : approveSet t = t
    · have ht' : t.approved = some true := (approveSet_eq_self t).mp ht
      simp [ht, ht']
    · have ht' : ¬ t.approved = some true := fun hh => ht ((approveSet_eq_self t).mpr hh)
      simp [ht, ht']

/-- Witness for `approve_admin_404_iff_already_approved` at a concrete
admin and an already-approved testimonial. -/
theorem approve_admin_404_iff_already_approved_witness :
    ((putTestimonialApprove [⟨"b@x", none, none, none, none, some "admin"⟩]
        [⟨"t2", some true, []⟩] "t2" "b@x").1.status = 404
      ↔ ∃ t, ([⟨"t2", some true, []⟩] : List Testimonial).find?
          (fun x => x.tid == "t2") = some t ∧ t.approved = some true) :=
  approve_admin_404_iff_already_approved
    [⟨"b@x", none, none, none, none, some "admin"⟩]
    [⟨"t2", some true, []⟩] "t2" "b@x" (by decide)

/-- Claim C3 (counterexample): `POST /users/:email` with an empty body
does not answer 200 with the no-op message: the empty `$set` is rejected
by MongoDB, so the handler's catch answers 500 "Internal server error"
(here at a user document that exists, the case the spec's no-op sentence
describes; the collection is indeed unchanged). -/
theorem updateProfile_empty_body_rejected :
    (postUsersEmail [⟨"u@x", none, none, none, none, none⟩] "u@x"
        ⟨none, none, none⟩).1
      = ⟨500, Body.message "Internal server error"⟩
    ∧ (postUsersEmail [⟨"u@x", none, none, none, none, none⟩] "u@x"
        ⟨none, none, none⟩).1.status ≠ 200
    ∧ (postUsersEmail [⟨"u@x", none, none, none, none, none⟩] "u@x"
        ⟨none, none, none⟩).1.body ≠ Body.message "No changes made to the user" := by
  decide

/-- Claim C3 (amended): `POST /users/:email` with a body containing none
of displayName, phoneNumber, country leaves the users collection
unchanged for every email — including emails with no user document — but
the response is 500 `{ message: "Internal server error" }`, not the 200
no-op message: MongoDB rejects the empty `$set` before writing anything
and the handler's catch block answers 500. -/
theorem updateProfile_empty_body_error (users : List User) (e : String) :
    postUsersEmail users e ⟨none, none, none⟩
      = (⟨500, Body.message "Internal server error"⟩, users) := by
  simp [postUsersEmail, profileHasFields, truthyStr]

/-- Claim C4 (counterexample): with a user document for `e@x` whose role is
`"admin"` already stored (a collection in which emails are unique), the
upsert of a body that omits `role` leaves the stored role in place, so
`GET /users/:email` answers `{admin: true}` although the submitted
document's role is not `"admin"`. -/
theorem upsert_then_adminFlag_role_absent :
    (∀ d1 ∈ ([⟨"e@x", none, none, none, none, some "admin"⟩] : List User),
      ∀ d2 ∈ ([⟨"e@x", none, none, none, none, some "admin"⟩] : List User), d1 = d2)
    ∧ (getUsersEmail (putUsers [⟨"e@x", none, none, none, none, some "admin"⟩]
        ⟨"e@x", none, none, none, none, none⟩).2 "e@x").body = Body.adminFlag true
    ∧ (⟨"e@x", none, none, none, none, none⟩ : User).role ≠ some "admin" := by
  decide

/-- Claim C4 (amended): for every user document `u` whose `role` field is
present, upserting `u` (`PUT /users`) and then querying `GET
/users/:email` with `u.email` yields `{admin: b}` with `b` true exactly
when `u.role` is `"admin"` (emails assumed unique in the collection). -/
theorem upsert_then_adminFlag_reflects_role (users : List User) (u : User)
    (r : String)
    (_hu : ∀ d1 ∈ users, ∀ d2 ∈ users,
      d1.email = u.email → d2.email = u.email → d1 = d2)
    (hr : u.role = some r) :
    getUsersEmail (putUsers users u).2 u.email
      = ⟨200, Body.adminFlag (decide (u.role = some "admin"))⟩ := by
  have hp : ∀ x : User, ((fun d : User => d.email == u.email) x) = true →
      ((fun d : User => d.email == u.email) (applyUserSet u x)) = true := by
    intro x _
    simp [applyUserSet]
  have hfr : ((fun d : User => d.email == u.email) u) = true := by simp
  have hfind := find?_mongoUpdateOne (fun d : User => d.email == u.email)
    (applyUserSet u) u users hp hfr
  cases hf : users.find? (fun d : User => d.email == u.email) with
  | none =>
    rw [hf] at hfind
    simp only [] at hfind
    simp [getUsersEmail, isAdmin, mongoFindOne, putUsers, hfind]
  | some t =>
    rw [hf] at hfind
    simp only [] at hfind
    simp [getUsersEmail, isAdmin, mongoFindOne, putUsers, hfind,
      applyUserSet, setF, hr]

/-- Witness for `upsert_then_adminFlag_reflects_role`: a non-admin role on
an empty collection. -/
theorem upsert_then_adminFlag_reflects_role_witness :
    getUsersEmail (putUsers []
        ⟨"w@x", none, none, none, none, some "user"⟩).2 "w@x"
      = ⟨200, Body.adminFlag (decide
          ((⟨"w@x", none, none, none, none, some "user"⟩ : User).role
            = some "admin"))⟩ :=
  upsert_then_adminFlag_reflects_role []
    ⟨"w@x", none, none, none, none, some "user"⟩ "user" (by simp) rfl

end DigitalSitePro
